import Mathlib

/-!
Verification of the file-sharing backend core (share-ID validation, password
policy, rate limiter, one-time download tokens, download/file-info/upload/scan
handlers) against its natural-language specification.

The TypeScript sources are shallowly embedded: each awaited collaborator call
(DynamoDB get/put/update, S3 presign, bcrypt) becomes an explicit argument
holding that call's result, machine timestamps become `Nat` epoch seconds, and
handlers return a pure response value together with the ordered list of store
side effects they issue.
-/

namespace FileSharing

/-- Scan lifecycle states from `backend/src/types/models.ts` (`scanStatus`). -/
inductive ScanStatus
  | pending
  | scanning
  | clean
  | infected
  | scanError
deriving DecidableEq, Repr

/-- `FileRecord` from `backend/src/types/models.ts`. Optional TS fields become
`Option`; timestamps are epoch seconds. -/
structure FileRecord where
  shareId : String
  originalFilename : String
  s3Key : String
  fileSize : Nat
  mimeType : String
  passwordHash : Option String
  uploadedAt : Nat
  expiresAt : Nat
  downloadCount : Nat
  scanStatus : Option ScanStatus
  scanDate : Option Nat
  scanResult : Option String
deriving DecidableEq, Repr

/-- The error-code enumeration of the API (`types/api.ts`, documented in the
repository README): stable codes surfaced to the caller. -/
inductive ErrorCode
  | VALIDATION_ERROR
  | FILE_NOT_FOUND
  | INVALID_PASSWORD
  | RATE_LIMITED
  | ACCESS_DENIED
  | SCAN_PENDING
  | UPLOAD_FAILED
  | STORAGE_ERROR
  | FILE_TOO_LARGE
  | INVALID_FILE_TYPE
  | DELETE_FAILED
deriving DecidableEq, Repr

/-- Response bodies the embedded handlers can produce. `errorBody` is the
`{success:false, error:{code, message}}` envelope; the others are the success
payloads of download step 1, download step 2, file info and upload. -/
inductive ResponseBody
  | errorBody (code : ErrorCode) (message : String)
  | tokenBody (downloadToken fileName : String) (fileSize : Nat) (mimeType : String)
  | urlBody (downloadUrl fileName : String) (fileSize : Nat) (mimeType : String)
  | infoBody (fileName : String) (fileSize uploadedAt expiresAt : Nat)
      (isPasswordProtected : Bool)
deriving DecidableEq, Repr

/-- An API Gateway response: status code plus body (headers are uniform
security headers added by `createSecureResponse` and carry no information). -/
structure ApiResponse where
  statusCode : Nat
  body : ResponseBody
deriving DecidableEq, Repr

/-- Store and storage side effects issued by the handlers, in program order. -/
inductive Effect
  | recordAttempt (shareId clientIp : String) (success : Bool)
  | createToken (tokenId shareId clientIp : String) (expirationMinutes : Nat)
  | presignGet (s3Key filename : String) (ttlSeconds : Nat)
  | incrementDownloadCount (shareId : String)
  | updateScanRecord (shareId : String) (status : ScanStatus) (scanDate : Nat)
      (scanResult : Option String)
  | deleteObject (bucket key : String)
  | writeBlockedUntil (blockedUntil : Nat)
  | saveFileRecord (record : FileRecord)
deriving DecidableEq, Repr

/-! ## `backend/src/utils/crypto.ts` -/

/-- One character of the base64url class `[A-Za-z0-9\-_]`. -/
def isBase64UrlChar (c : Char) : Bool :=
  ('A' ≤ c && c ≤ 'Z') || ('a' ≤ c && c ≤ 'z') || ('0' ≤ c && c ≤ '9') ||
    c = '-' || c = '_'

/-- The anchored regex test `/^[A-Za-z0-9\-_]+$/.test s`: non-empty and every
character in the base64url class. -/
def base64urlPatternTest (s : String) : Bool :=
  !s.data.isEmpty && s.data.all isBase64UrlChar

/-- `isValidShareId` from `crypto.ts`: length 32 (standard) or 16 (short),
and only base64url characters. -/
def isValidShareId (shareId : String) : Bool :=
  if shareId.length ≠ 32 && shareId.length ≠ 16 then false
  else base64urlPatternTest shareId

/-- `isValidDownloadToken` from `crypto.ts`: exactly 22 characters (16 bytes
base64url encoded), only base64url characters. -/
def isValidDownloadToken (token : String) : Bool :=
  if token.length ≠ 22 then false
  else base64urlPatternTest token

/-- The base64url alphabet in index order, as used by Node's
`Buffer.toString base64url`. -/
def base64UrlAlphabet : List Char :=
  "ABCDEFGHIJKLMNOPQRSTUVWXYZabcdefghijklmnopqrstuvwxyz0123456789-_".data

/-- Character for a 6-bit group. -/
def b64Char (n : Nat) : Char := base64UrlAlphabet.getD n 'A'

/-- Encode one full 3-byte group into 4 base64url characters. -/
def encode3 (b1 b2 b3 : Nat) : List Char :=
  let n := b1 * 65536 + b2 * 256 + b3
  [b64Char (n / 262144 % 64), b64Char (n / 4096 % 64),
   b64Char (n / 64 % 64), b64Char (n % 64)]

/-- Unpadded base64url encoding of a byte list (Node `base64url` drops the
`=` padding; a trailing 1-byte group yields 2 characters, 2 bytes yield 3). -/
def base64UrlEncode : List Nat → List Char
  | b1 :: b2 :: b3 :: rest => encode3 b1 b2 b3 ++ base64UrlEncode rest
  | [b1, b2] =>
    [b64Char (b1 / 4), b64Char (b1 % 4 * 16 + b2 / 16), b64Char (b2 % 16 * 4)]
  | [b1] => [b64Char (b1 / 4), b64Char (b1 % 4 * 16)]
  | [] => []

/-- `generateShortShareId` from `crypto.ts`: base64url encoding of the 12
random bytes produced by `randomBytes 12` (the entropy source is passed in). -/
def generateShortShareId (randomData : List Nat) : String :=
  String.mk (base64UrlEncode randomData)

/-- `hashPassword` from `crypto.ts`: directly returns `bcrypt.hash password
SALT_ROUNDS`. The bcrypt primitive is the external collaborator `bcryptHash`;
the function body performs no validation of its own, so it never fails. -/
def hashPassword (bcryptHash : String → String) (password : String) :
    Except String String :=
  Except.ok (bcryptHash password)

/-! ## `backend/src/utils/passwordValidator.ts` -/

/-- Result record of `validatePasswordStrength`. -/
structure PasswordValidationResult where
  isValid : Bool
  errors : List String
deriving DecidableEq, Repr

/-- The special-character class of the strength regex
`/[!@#$%^&*()_+\-=\[\]{};':"\\|,.<>\/?]/`. -/
def passwordSpecialChars : List Char :=
  ['!', '@', '#', '$', '%', '^', '&', '*', '(', ')', '_', '+', '-', '=',
   '[', ']', Char.ofNat 123, Char.ofNat 125, ';', '\'', ':', '\"', '\\',
   '|', ',', '.', '<', '>', '/', '?']

/-- Anchored prefix test on character lists, the meaning of a `/^lit/`
regex. -/
def charsStartWith : List Char → List Char → Bool
  | _, [] => true
  | [], _ :: _ => false
  | c :: cs, p :: ps => c = p && charsStartWith cs ps

/-- Case-sensitive and case-insensitive common-pattern prefixes from the
denylist in `validatePasswordStrength` (all but the first are `/i` regexes,
tested here by lower-casing the candidate). -/
def commonPatternHit (password : String) : Bool :=
  charsStartWith password.data "12345678".data ||
    (let lower := password.data.map Char.toLower
     charsStartWith lower "password".data || charsStartWith lower "qwerty".data ||
       charsStartWith lower "admin".data || charsStartWith lower "letmein".data ||
       charsStartWith lower "welcome".data || charsStartWith lower "monkey".data ||
       charsStartWith lower "dragon".data)

/-- The regex `/(.)\1{3,}/`: some character repeated 4 or more times in a
row. -/
def hasRun4 : List Char → Bool
  | [] => false
  | [_] => false
  | [_, _] => false
  | [_, _, _] => false
  | a :: b :: c :: d :: rest =>
    (a = b && b = c && c = d) || hasRun4 (b :: c :: d :: rest)

/-- `validatePasswordStrength` from `passwordValidator.ts`, accumulating the
error messages in source order. -/
def validatePasswordStrength (password : String) : PasswordValidationResult :=
  let errors1 :=
    if password.length < 8 then ["Password must be at least 8 characters long"]
    else []
  let errors2 :=
    if password.length > 128 then
      errors1 ++ ["Password must not exceed 128 characters"]
    else errors1
  let hasUpperCase := password.data.any (fun c => 'A' ≤ c && c ≤ 'Z')
  let hasLowerCase := password.data.any (fun c => 'a' ≤ c && c ≤ 'z')
  let hasNumbers := password.data.any (fun c => '0' ≤ c && c ≤ '9')
  let hasSpecialChar := password.data.any (fun c => passwordSpecialChars.contains c)
  let complexityCount :=
    [hasUpperCase, hasLowerCase, hasNumbers, hasSpecialChar].count true
  let errors3 :=
    if complexityCount < 3 then
      errors2 ++ ["Password must contain at least 3 of the following: uppercase letters, lowercase letters, numbers, special characters"]
    else errors2
  let errors4 :=
    if commonPatternHit password then
      errors3 ++ ["Password is too common or follows a predictable pattern"]
    else errors3
  let errors5 :=
    if hasRun4 password.data then
      errors4 ++ ["Password should not contain more than 3 repeated characters in a row"]
    else errors4
  { isValid := errors5.isEmpty, errors := errors5 }

/-! ## `backend/src/utils/rateLimiter.ts` -/

/-- `RateLimitRecord` stored per `RATELIMIT#shareId#ip` key. -/
structure RateLimitRecord where
  attempts : Nat
  blockedUntil : Option Nat
  lastAttempt : Nat
deriving DecidableEq, Repr

/-- The return shape of `checkRateLimit`. `blockedUntil` is in epoch seconds
(the source wraps it in a `Date`). -/
structure RateLimitResult where
  allowed : Bool
  remainingAttempts : Option Nat
  blockedUntil : Option Nat
deriving DecidableEq, Repr

/-- `MAX_ATTEMPTS` constant. -/
def MAX_ATTEMPTS : Nat := 5

/-- `BLOCK_DURATION` constant: 15 minutes in seconds. -/
def BLOCK_DURATION : Nat := 15 * 60

/-- `ATTEMPT_WINDOW` constant: 1 hour in seconds. -/
def ATTEMPT_WINDOW : Nat := 60 * 60

/-- The guard `record.blockedUntil && record.blockedUntil > currentTime`
(a `blockedUntil` of 0 is JS-falsy, but `0 > now` is false anyway). -/
def blockedActive (record : RateLimitRecord) (now : Nat) : Bool :=
  match record.blockedUntil with
  | some b => now < b
  | none => false

/-- `checkRateLimit` from `rateLimiter.ts`. `getRes` is the result of the
awaited store `GetCommand` (`Except.error` models a thrown exception), and
`updRes` the result of the `UpdateCommand` issued on the lockout transition;
either exception lands in the surrounding catch, which fails closed with a
15-minute block. Returns the result together with the write effects issued
(the lockout write, when it succeeds). -/
def checkRateLimit (getRes : Except Unit (Option RateLimitRecord))
    (updRes : Except Unit Unit) (now : Nat) : RateLimitResult × List Effect :=
  match getRes with
  | Except.error _ =>
    ({ allowed := false, remainingAttempts := none,
       blockedUntil := some (now + BLOCK_DURATION) }, [])
  | Except.ok none =>
    ({ allowed := true, remainingAttempts := some MAX_ATTEMPTS,
       blockedUntil := none }, [])
  | Except.ok (some record) =>
    if blockedActive record now then
      ({ allowed := false, remainingAttempts := none,
         blockedUntil := record.blockedUntil }, [])
    else if record.lastAttempt < now - ATTEMPT_WINDOW then
      ({ allowed := true, remainingAttempts := some MAX_ATTEMPTS,
         blockedUntil := none }, [])
    else if MAX_ATTEMPTS ≤ record.attempts then
      match updRes with
      | Except.error _ =>
        ({ allowed := false, remainingAttempts := none,
           blockedUntil := some (now + BLOCK_DURATION) }, [])
      | Except.ok _ =>
        ({ allowed := false, remainingAttempts := none,
           blockedUntil := some (now + BLOCK_DURATION) },
         [Effect.writeBlockedUntil (now + BLOCK_DURATION)])
    else if MAX_ATTEMPTS - record.attempts = 0 then
      ({ allowed := false, remainingAttempts := some 0, blockedUntil := none },
       [])
    else
      ({ allowed := true,
         remainingAttempts := some (MAX_ATTEMPTS - record.attempts),
         blockedUntil := none }, [])

/-- Generic per-key counter record used by `checkRateLimitGeneric`. -/
structure GenericRateRecord where
  count : Nat
  windowStart : Nat
deriving DecidableEq, Repr

/-- `checkRateLimitGeneric` from `rateLimiter.ts`. `getRes`, `putRes` and
`updRes` are the results of the awaited `GetCommand`, `PutCommand` (first
request or window reset) and `UpdateCommand` (counter increment); any thrown
store error reaches the catch and fails closed (`false`). -/
def checkRateLimitGeneric (getRes : Except Unit (Option GenericRateRecord))
    (putRes : Except Unit Unit) (updRes : Except Unit Unit)
    (windowSeconds maxRequests now : Nat) : Bool :=
  match getRes with
  | Except.error _ => false
  | Except.ok none =>
    match putRes with
    | Except.error _ => false
    | Except.ok _ => true
  | Except.ok (some record) =>
    if record.windowStart < now - windowSeconds then
      match putRes with
      | Except.error _ => false
      | Except.ok _ => true
    else if maxRequests ≤ record.count then false
    else
      match updRes with
      | Except.error _ => false
      | Except.ok _ => true

/-! ## `backend/src/utils/dynamodb.ts` (full version): download tokens -/

/-- `DownloadToken` item as written by `createDownloadToken` (the table key is
`TOKEN#` + tokenId, the file's share id is kept in `originalShareId`). -/
structure DownloadToken where
  tokenId : String
  originalShareId : String
  createdAt : Nat
  expiresAt : Nat
  used : Bool
  usedAt : Option Nat
  clientIp : String
deriving DecidableEq, Repr

/-- The token table, an association list from store key to item. -/
abbrev TokenStore : Type := List (String × DownloadToken)

/-- Table key for a token: the `TOKEN#` prefixed id. -/
def tokenKey (tokenId : String) : String := "TOKEN#" ++ tokenId

/-- `GetCommand` on the token table. -/
def storeGet (st : TokenStore) (key : String) : Option DownloadToken :=
  (st.find? (fun p => p.1 == key)).map Prod.snd

/-- The write half of the `UpdateCommand` `SET used = true, usedAt = now`. -/
def markUsed (st : TokenStore) (key : String) (now : Nat) : TokenStore :=
  st.map (fun p =>
    if p.1 == key then (p.1, { p.2 with used := true, usedAt := some now })
    else p)

/-- The conditional `UpdateCommand` with `ConditionExpression used = false`:
succeeds (and writes) only when the item exists and is currently unused, as
the store serializes it; otherwise raises `ConditionalCheckFailedException`
(modelled as `false`) and leaves the store unchanged. -/
def condUpdateUsed (st : TokenStore) (key : String) (now : Nat) :
    Bool × TokenStore :=
  match storeGet st key with
  | some token => if token.used then (false, st) else (true, markUsed st key now)
  | none => (false, st)

/-- Result record of `validateAndConsumeToken`. -/
structure TokenResult where
  valid : Bool
  shareId : Option String
  error : Option String
deriving DecidableEq, Repr

/-- `validateAndConsumeToken` from `dynamodb.ts`. The `GetCommand` reads from
`readStore`; the conditional `UpdateCommand` executes against `updStore`, the
store content at the (possibly later) serialization point of the update — a
sequential call passes the same store twice, while a concurrent losing
redeemer sees an `updStore` in which the winner already marked the token used.
The guard `token.clientIp && token.clientIp !== clientIp` skips the IP check
when the stored ip is the empty string (JS falsiness). -/
def validateAndConsumeToken (readStore updStore : TokenStore)
    (tokenId clientIp : String) (now : Nat) : TokenResult × TokenStore :=
  match storeGet readStore (tokenKey tokenId) with
  | none =>
    ({ valid := false, shareId := none, error := some "Invalid download token" },
     updStore)
  | some token =>
    if token.used then
      ({ valid := false, shareId := none,
         error := some "Download token has already been used" }, updStore)
    else if token.expiresAt < now then
      ({ valid := false, shareId := none,
         error := some "Download token has expired" }, updStore)
    else if token.clientIp ≠ "" && token.clientIp ≠ clientIp then
      ({ valid := false, shareId := none,
         error := some "Invalid request origin" }, updStore)
    else
      let upd := condUpdateUsed updStore (tokenKey tokenId) now
      if upd.1 then
        ({ valid := true, shareId := some token.originalShareId, error := none },
         upd.2)
      else
        ({ valid := false, shareId := none,
           error := some "Download token has already been used" }, upd.2)

/-- A serialized sequence of redemption attempts on one token: each attempt is
a sequential `validateAndConsumeToken` call against the store state left by
the previous one. Returns the number of successful redemptions and the final
store. -/
def runAttempts : TokenStore → String → List (String × Nat) → Nat × TokenStore
  | st, _, [] => (0, st)
  | st, tokenId, (ip, now) :: rest =>
    let step := validateAndConsumeToken st st tokenId ip now
    let tail := runAttempts step.2 tokenId rest
    ((if step.1.valid then 1 else 0) + tail.1, tail.2)

/-! ## `backend/src/handlers/download.ts` -/

/-- The JS truthiness test `if (fileRecord.passwordHash)`: protected only when
the hash is present and non-empty. -/
def recordProtected (record : FileRecord) : Bool :=
  match record.passwordHash with
  | some h => h ≠ ""
  | none => false

/-- `createErrorResponse` from `download.ts`: status 404 / 401 / 429 / 400 by
code unless a custom status is passed. -/
def downloadErrorResponse (code : ErrorCode) (message : String)
    (customStatusCode : Option Nat := none) : ApiResponse :=
  let statusCode :=
    match customStatusCode with
    | some s => s
    | none =>
      if code = ErrorCode.FILE_NOT_FOUND then 404
      else if code = ErrorCode.INVALID_PASSWORD then 401
      else if code = ErrorCode.RATE_LIMITED then 429
      else 400
  { statusCode := statusCode, body := ResponseBody.errorBody code message }

/-- Download step 1 (the non-token branch of the `download.ts` handler).
Arguments carry the results of the awaited collaborator calls in program
order: `generalAllowed` from `checkRateLimitGeneric`, `getRecordResult` from
`getFileRecord`, `rateLimitResult` from `checkRateLimit` (only consulted on
the password path), `verifyResult` from `verifyPassword`, and `newToken` from
`generateDownloadToken`. Returns the response and the issued effects. JS
truthiness: an absent or empty body password fails `if (!password)`. -/
def downloadStep1 (generalAllowed : Bool) (getRecordResult : Option FileRecord)
    (rateLimitResult : RateLimitResult) (verifyResult : Bool)
    (newToken : String) (shareId : Option String) (password : Option String)
    (clientIp : String) (now : Nat) : ApiResponse × List Effect :=
  match shareId with
  | none => (downloadErrorResponse ErrorCode.VALIDATION_ERROR "Share ID is required", [])
  | some sid =>
    if ¬ isValidShareId sid then
      (downloadErrorResponse ErrorCode.VALIDATION_ERROR "Invalid share ID format", [])
    else if ¬ generalAllowed then
      (downloadErrorResponse ErrorCode.RATE_LIMITED
        "Too many requests. Please try again later." (some 429), [])
    else
      match getRecordResult with
      | none =>
        (downloadErrorResponse ErrorCode.FILE_NOT_FOUND
          "File not found or has expired", [])
      | some fileRecord =>
        if fileRecord.expiresAt < now then
          (downloadErrorResponse ErrorCode.FILE_NOT_FOUND "File has expired", [])
        else
          if recordProtected fileRecord then
            match password with
            | none =>
              (downloadErrorResponse ErrorCode.INVALID_PASSWORD
                "Password is required", [])
            | some p =>
              if p = "" then
                (downloadErrorResponse ErrorCode.INVALID_PASSWORD
                  "Password is required", [])
              else if ¬ rateLimitResult.allowed then
                (downloadErrorResponse ErrorCode.RATE_LIMITED
                  "Too many failed attempts. Please try again later." (some 429),
                 [])
              else if ¬ verifyResult then
                (downloadErrorResponse ErrorCode.INVALID_PASSWORD
                  "Invalid password",
                 [Effect.recordAttempt sid clientIp false])
              else
                ({ statusCode := 200,
                   body := ResponseBody.tokenBody newToken
                     fileRecord.originalFilename fileRecord.fileSize
                     fileRecord.mimeType },
                 [Effect.recordAttempt sid clientIp true,
                  Effect.createToken newToken sid clientIp 5])
          else
            ({ statusCode := 200,
               body := ResponseBody.tokenBody newToken
                 fileRecord.originalFilename fileRecord.fileSize
                 fileRecord.mimeType },
             [Effect.createToken newToken sid clientIp 5])

/-- `handleTokenDownload` from `download.ts` (download step 2). `store` is the
token table at the redemption's serialization point, `getRecord` the record
table read performed after token consumption, `presignedUrl` the result of
`getPresignedDownloadUrl`. The source reads `tokenResult.shareId!` with a
non-null assertion; on the valid path the share id is always set. -/
def handleTokenDownload (store : TokenStore)
    (getRecord : String → Option FileRecord) (presignedUrl : String)
    (token clientIp : String) (now : Nat) : ApiResponse × List Effect :=
  if ¬ isValidDownloadToken token then
    (downloadErrorResponse ErrorCode.VALIDATION_ERROR
      "Invalid download token format", [])
  else
    let tokenResult := (validateAndConsumeToken store store token clientIp now).1
    if ¬ tokenResult.valid then
      (downloadErrorResponse ErrorCode.VALIDATION_ERROR
        (tokenResult.error.getD "Invalid download token"), [])
    else
      let sid := tokenResult.shareId.getD ""
      match getRecord sid with
      | none =>
        (downloadErrorResponse ErrorCode.FILE_NOT_FOUND
          "File not found or has expired", [])
      | some fileRecord =>
        ({ statusCode := 200,
           body := ResponseBody.urlBody presignedUrl
             fileRecord.originalFilename fileRecord.fileSize
             fileRecord.mimeType },
         [Effect.presignGet fileRecord.s3Key fileRecord.originalFilename 300,
          Effect.incrementDownloadCount sid])

/-! ## `backend/src/handlers/fileInfo.ts` -/

/-- `createErrorResponse` from `fileInfo.ts`: 404 for FILE_NOT_FOUND, 400
otherwise. -/
def fileInfoErrorResponse (code : ErrorCode) (message : String) : ApiResponse :=
  { statusCode := if code = ErrorCode.FILE_NOT_FOUND then 404 else 400,
    body := ResponseBody.errorBody code message }

/-- `fileInfoHandler` from `fileInfo.ts`. `isAllowed` is the result of the
awaited `checkRateLimitGeneric`, `getRecordResult` of `getFileRecord`. The
success payload keeps `uploadedAt`/`expiresAt` as epoch seconds (the source
renders them as ISO strings, an injective image). -/
def fileInfoHandler (isAllowed : Bool) (getRecordResult : Option FileRecord)
    (shareId : Option String) (now : Nat) : ApiResponse :=
  match shareId with
  | none => fileInfoErrorResponse ErrorCode.VALIDATION_ERROR "Share ID is required"
  | some sid =>
    if ¬ isValidShareId sid then
      fileInfoErrorResponse ErrorCode.VALIDATION_ERROR "Invalid share ID format"
    else if ¬ isAllowed then
      fileInfoErrorResponse ErrorCode.VALIDATION_ERROR
        "Too many requests. Please try again later."
    else
      match getRecordResult with
      | none =>
        fileInfoErrorResponse ErrorCode.FILE_NOT_FOUND
          "File not found or has expired"
      | some fileRecord =>
        if fileRecord.expiresAt < now then
          fileInfoErrorResponse ErrorCode.FILE_NOT_FOUND "File has expired"
        else
          { statusCode := 200,
            body := ResponseBody.infoBody fileRecord.originalFilename
              fileRecord.fileSize fileRecord.uploadedAt fileRecord.expiresAt
              (recordProtected fileRecord) }

/-! ## `backend/src/handlers/upload.ts` -/

/-- `UPLOAD_CONFIG.expirationHours` from `types/models.ts`. -/
def expirationHours : Nat := 48

/-- The `FileRecord` literal built by the upload handler before
`saveFileRecord`: `uploadedAt = currentTime`,
`expiresAt = currentTime + expirationHours * 3600`, `downloadCount = 0`, and
no `scanStatus`, `scanDate` or `scanResult` attribute (the literal omits
them, so they are undefined). -/
def mkUploadRecord (shareId originalFilename s3Key : String) (fileSize : Nat)
    (mimeType : String) (passwordHash : Option String) (now : Nat) :
    FileRecord :=
  { shareId := shareId
    originalFilename := originalFilename
    s3Key := s3Key
    fileSize := fileSize
    mimeType := mimeType
    passwordHash := passwordHash
    uploadedAt := now
    expiresAt := now + expirationHours * 3600
    downloadCount := 0
    scanStatus := none
    scanDate := none
    scanResult := none }

/-- Parsed upload request body fields. -/
structure UploadRequest where
  fileName : Option String
  fileSize : Option Nat
  contentType : Option String
  password : Option String
deriving DecidableEq, Repr

/-- Outcome of the upload handler: an error response, or the saved record. -/
inductive UploadOutcome
  | errorOut (code : ErrorCode) (message : String)
  | successOut (record : FileRecord)
deriving DecidableEq, Repr

/-- The `upload.ts` handler flow after JSON parsing. `validationOk` carries
the `validateFile` verdict (its error code/message are `validationCode` /
`validationMsg` when invalid); `shareId`, `s3Key` and `uploadUrl` are the
results of `generateShareId`, `generateS3Key` and
`createPresignedUploadUrl`; `bcryptHash` is the bcrypt collaborator used by
`hashPassword`. JS falsiness in the source: an absent, empty or zero required
field fails the `!fileName || !fileSize || !contentType` guard, and an empty
password string fails `if password` and is treated as no password. -/
def uploadHandler (validationOk : Bool) (validationCode : ErrorCode)
    (validationMsg : String) (bcryptHash : String → String)
    (shareId s3Key : String) (now : Nat) (req : UploadRequest) :
    UploadOutcome :=
  match req.fileName, req.fileSize, req.contentType with
  | some fileName, some fileSize, some contentType =>
    if fileName = "" || fileSize = 0 || contentType = "" then
      UploadOutcome.errorOut ErrorCode.VALIDATION_ERROR
        "Missing required fields: fileName, fileSize, contentType"
    else if ¬ validationOk then
      UploadOutcome.errorOut validationCode validationMsg
    else
      match req.password with
      | some password =>
        if password = "" then
          UploadOutcome.successOut
            (mkUploadRecord shareId fileName s3Key fileSize contentType none now)
        else if ¬ (validatePasswordStrength password).isValid then
          UploadOutcome.errorOut ErrorCode.VALIDATION_ERROR
            ("Password validation failed: " ++
              String.intercalate ", " (validatePasswordStrength password).errors)
        else
          match hashPassword bcryptHash password with
          | Except.ok passwordHash =>
            UploadOutcome.successOut
              (mkUploadRecord shareId fileName s3Key fileSize contentType
                (some passwordHash) now)
          | Except.error _ =>
            UploadOutcome.errorOut ErrorCode.UPLOAD_FAILED
              "Failed to create upload URL"
      | none =>
        UploadOutcome.successOut
          (mkUploadRecord shareId fileName s3Key fileSize contentType none now)
  | _, _, _ =>
    UploadOutcome.errorOut ErrorCode.VALIDATION_ERROR
      "Missing required fields: fileName, fileSize, contentType"

/-! ## `backend/src/handlers/scanResult.ts` -/

/-- The JSON payload `JSON.stringify` of `{status: v}` written to
`scanResult` for a non-clean scan outcome. -/
def statusJson (v : String) : String :=
  "\x7b\"status\":\"" ++ v ++ "\"\x7d"

/-- The scan-status tag lookup
`tags.find (tag => tag.Key === "GuardDutyMalwareScanStatus")`. -/
def findScanStatusTag (tags : List (String × String)) : Option String :=
  (tags.find? (fun tag => tag.1 == "GuardDutyMalwareScanStatus")).map Prod.snd

/-- Split a character list at every occurrence of `sep`, keeping empty
segments; `splitOnChar '/' s.data` agrees with JS `s.split("/")`. -/
def splitOnChar (sep : Char) : List Char → List (List Char)
  | [] => [[]]
  | c :: rest =>
    let r := splitOnChar sep rest
    if c = sep then [] :: r
    else
      match r with
      | [] => [[c]]
      | h :: t => (c :: h) :: t

/-- `objectKey.split("/")` from the scan handler. -/
def splitKey (objectKey : String) : List String :=
  (splitOnChar '/' objectKey.data).map String.mk

/-- The `scanResult.ts` handler, returning the store/storage effects it
issues in program order. Guards: foreign bucket, malformed key (fewer than 5
`/`-separated parts), or a share id that is not 32 characters are dropped
silently; a missing scan tag is a no-op; `NO_THREATS_FOUND` marks the record
clean; any other tag value marks it infected (recording the raw status inside
the `scanResult` JSON) and then deletes the object. -/
def scanResultHandler (bucketName objectKey : String)
    (tags : List (String × String)) (now : Nat) : List Effect :=
  if bucketName ≠ "filelair-files" then []
  else
    let keyParts := splitKey objectKey
    if keyParts.length < 5 then []
    else
      let shareId := keyParts.getD 3 ""
      if shareId.length ≠ 32 then []
      else
        match findScanStatusTag tags with
        | none => []
        | some v =>
          if v = "NO_THREATS_FOUND" then
            [Effect.updateScanRecord shareId ScanStatus.clean now none]
          else
            [Effect.updateScanRecord shareId ScanStatus.infected now
              (some (statusJson v)),
             Effect.deleteObject "filelair-files" objectKey]

/-! ## Concrete fixtures for witnesses and counterexamples -/

/-- A well-formed 32-character share id. -/
def sampleShareId : String := "ABCDEFGHIJKLMNOPQRSTUVWXYZabcdef"

/-- A well-formed 22-character download token id. -/
def sampleTokenId : String := "AAAAAAAAAAAAAAAAAAAAAA"

/-- A dummy rate-limit result for paths that never consult it. -/
def sampleRateLimit : RateLimitResult :=
  { allowed := true, remainingAttempts := some 5, blockedUntil := none }

/-- An unexpired, unprotected record that the scan processor marked
infected. -/
def infectedRecord : FileRecord :=
  { shareId := sampleShareId, originalFilename := "a.txt", s3Key := "k",
    fileSize := 10, mimeType := "text/plain", passwordHash := none,
    uploadedAt := 0, expiresAt := 200, downloadCount := 0,
    scanStatus := some ScanStatus.infected, scanDate := some 50,
    scanResult := some "x" }

/-- An unexpired, unprotected record still awaiting its malware scan. -/
def pendingRecord : FileRecord :=
  { infectedRecord with
    scanStatus := some ScanStatus.pending,
    scanDate := none,
    scanResult := none }

/-- A record whose `expiresAt` (100) is already in the past at time 200. -/
def expiredRecord : FileRecord :=
  { infectedRecord with
    expiresAt := 100,
    scanStatus := some ScanStatus.clean }

/-- An unused, unexpired download token bound to `sampleShareId`. -/
def sampleToken : DownloadToken :=
  { tokenId := sampleTokenId, originalShareId := sampleShareId, createdAt := 0,
    expiresAt := 300, used := false, usedAt := none, clientIp := "ip" }

/-- Token table holding just `sampleToken`. -/
def sampleTokenStore : TokenStore := [(tokenKey sampleTokenId, sampleToken)]

/-- Record-table read that finds `expiredRecord` under `sampleShareId`. -/
def expiredRecordLookup : String → Option FileRecord :=
  fun s => if s = sampleShareId then some expiredRecord else none

/-- A 129-character plaintext, above the 128-character policy limit. -/
def longPassword : String := String.mk (List.replicate 129 'a')

/-! ## Helper lemmas -/

/-- Every 6-bit group maps to a character of the base64url class. -/
theorem b64Char_valid (n : Nat) : isBase64UrlChar (b64Char n) = true := by
  unfold b64Char List.getD
  rcases hg : base64UrlAlphabet.get? n with _ | c
  · decide
  · have hmem : c ∈ base64UrlAlphabet := List.get?_mem hg
    have hall : ∀ x ∈ base64UrlAlphabet, isBase64UrlChar x = true := by decide
    simpa using hall c hmem

/-- Every character produced by the base64url encoder is in the base64url
class. -/
theorem base64UrlEncode_all_valid :
    ∀ (l : List Nat) (c : Char), c ∈ base64UrlEncode l →
      isBase64UrlChar c = true
  | [], c, h => by simp [base64UrlEncode] at h
  | [b1], c, h => by
    simp [base64UrlEncode] at h
    rcases h with h | h <;> (subst h; exact b64Char_valid _)
  | [b1, b2], c, h => by
    simp [base64UrlEncode] at h
    rcases h with h | h | h <;> (subst h; exact b64Char_valid _)
  | b1 :: b2 :: b3 :: b4 :: rest, c, h => by
    simp only [base64UrlEncode, encode3, List.mem_append, List.mem_cons,
      List.not_mem_nil, or_false] at h
    rcases h with (h | h | h | h) | h
    · subst h; exact b64Char_valid _
    · subst h; exact b64Char_valid _
    · subst h; exact b64Char_valid _
    · subst h; exact b64Char_valid _
    · exact base64UrlEncode_all_valid (b4 :: rest) c h
  | [b1, b2, b3], c, h => by
    simp only [base64UrlEncode, encode3, List.mem_append, List.mem_cons,
      List.not_mem_nil, or_false] at h
    rcases h with h | h | h | h <;> (subst h; exact b64Char_valid _)

/-- A byte list of length `3 * k` encodes to `4 * k` characters. -/
theorem base64UrlEncode_length_full (k : Nat) :
    ∀ l : List Nat, l.length = 3 * k → (base64UrlEncode l).length = 4 * k := by
  induction k with
  | zero =>
    intro l h
    have : l = [] := List.length_eq_zero.mp (by omega)
    subst this
    simp [base64UrlEncode]
  | succ k ih =>
    intro l h
    rcases l with _ | ⟨b1, l⟩
    · simp at h
    rcases l with _ | ⟨b2, l⟩
    · simp at h; omega
    rcases l with _ | ⟨b3, l⟩
    · simp at h; omega
    have hl : l.length = 3 * k := by simp at h; omega
    have : base64UrlEncode (b1 :: b2 :: b3 :: l) =
        encode3 b1 b2 b3 ++ base64UrlEncode l := by
      cases l <;> rfl
    rw [this]
    simp only [List.length_append, encode3, List.length_cons, List.length_nil,
      ih l hl]
    omega

/-! ## Claim theorems -/

/-- C10: `isValidShareId` accepts exactly the 32-character and 16-character
base64url strings — in particular every short share id produced by
`generateShortShareId` from 12 random bytes — and rejects any other length or
any character outside `[A-Za-z0-9_-]`. -/
theorem c10_isValidShareId_short_and_standard :
    (∀ s : String, isValidShareId s = true ↔
      ((s.length = 32 ∨ s.length = 16) ∧ s.data.all isBase64UrlChar = true)) ∧
    (∀ randomData : List Nat, randomData.length = 12 →
      isValidShareId (generateShortShareId randomData) = true) := by
  constructor
  · intro s
    have hlen : s.length = s.data.length := rfl
    by_cases h32 : s.length = 32
    · have hne : s.data.isEmpty = false := by
        rcases hd : s.data with _ | ⟨a, t⟩
        · rw [hlen, hd] at h32; simp at h32
        · rfl
      simp [isValidShareId, base64urlPatternTest, h32, hne]
    · by_cases h16 : s.length = 16
      · have hne : s.data.isEmpty = false := by
          rcases hd : s.data with _ | ⟨a, t⟩
          · rw [hlen, hd] at h16; simp at h16
          · rfl
        simp [isValidShareId, base64urlPatternTest, h16, h32, hne]
      · simp [isValidShareId, h32, h16]
  · intro randomData hlen
    have hfull : (base64UrlEncode randomData).length = 16 :=
      base64UrlEncode_length_full 4 randomData (by omega)
    have hdata : (generateShortShareId randomData).data =
        base64UrlEncode randomData := rfl
    have hslen : (generateShortShareId randomData).length = 16 := by
      show (generateShortShareId randomData).data.length = 16
      rw [hdata, hfull]
    have hne : (generateShortShareId randomData).data.isEmpty = false := by
      rcases hd : (generateShortShareId randomData).data with _ | ⟨a, t⟩
      · rw [hd] at hdata
        rw [← hdata] at hfull
        simp at hfull
      · rfl
    have hall : (generateShortShareId randomData).data.all isBase64UrlChar = true := by
      rw [hdata]
      rw [List.all_eq_true]
      intro c hc
      exact base64UrlEncode_all_valid randomData c hc
    simp [isValidShareId, base64urlPatternTest, hslen, hne, hall]

/-- C10 witness: the validity split at concrete inputs — a 16-character
base64url string and the encoding of 12 concrete bytes are accepted, a
15-character string is rejected. -/
theorem c10_isValidShareId_witness :
    isValidShareId "abcDEF0189-_abcd" = true ∧
    isValidShareId (generateShortShareId [0, 1, 2, 3, 4, 5, 6, 7, 8, 9, 10, 255]) = true ∧
    isValidShareId "abcDEF0189-_abc" = false := by
  refine ⟨?_, ?_, ?_⟩
  · exact (c10_isValidShareId_short_and_standard.1 "abcDEF0189-_abcd").mpr
      (by decide)
  · exact c10_isValidShareId_short_and_standard.2
      [0, 1, 2, 3, 4, 5, 6, 7, 8, 9, 10, 255] (by decide)
  · decide

/-- C3: any store exception inside `checkRateLimit` — on the initial read or
on the lockout write — yields `allowed = false` with a lockout 15 minutes in
the future, never `allowed = true`; and `checkRateLimitGeneric` returns
`false` whenever the store operation it reaches throws. -/
theorem c3_rate_limiters_fail_closed :
    (∀ (updRes : Except Unit Unit) (now : Nat),
      checkRateLimit (Except.error ()) updRes now =
        ({ allowed := false, remainingAttempts := none,
           blockedUntil := some (now + BLOCK_DURATION) }, [])) ∧
    (∀ (record : RateLimitRecord) (now : Nat),
      blockedActive record now = false →
      ¬ record.lastAttempt < now - ATTEMPT_WINDOW →
      MAX_ATTEMPTS ≤ record.attempts →
      checkRateLimit (Except.ok (some record)) (Except.error ()) now =
        ({ allowed := false, remainingAttempts := none,
           blockedUntil := some (now + BLOCK_DURATION) }, [])) ∧
    (∀ (putRes updRes : Except Unit Unit) (windowSeconds maxRequests now : Nat),
      checkRateLimitGeneric (Except.error ()) putRes updRes
        windowSeconds maxRequests now = false) ∧
    (∀ (updRes : Except Unit Unit) (windowSeconds maxRequests now : Nat),
      checkRateLimitGeneric (Except.ok none) (Except.error ()) updRes
        windowSeconds maxRequests now = false) ∧
    (∀ (record : GenericRateRecord) (windowSeconds maxRequests now : Nat),
      checkRateLimitGeneric (Except.ok (some record)) (Except.error ())
        (Except.error ()) windowSeconds maxRequests now = false) := by
  refine ⟨fun updRes now => rfl, ?_, fun _ _ _ _ _ => rfl, fun _ _ _ _ => rfl, ?_⟩
  · intro record now hb hw ha
    simp [checkRateLimit, hb, hw, ha]
  · intro record windowSeconds maxRequests now
    simp only [checkRateLimitGeneric]
    split
    · rfl
    · split
      · rfl
      · rfl

/-- C3 witness: a record on the lockout path with a failing update, at
concrete values. -/
theorem c3_rate_limiters_fail_closed_witness :
    checkRateLimit
        (Except.ok (some { attempts := 5, blockedUntil := none, lastAttempt := 0 }))
        (Except.error ()) 0 =
      ({ allowed := false, remainingAttempts := none,
         blockedUntil := some (0 + BLOCK_DURATION) }, []) :=
  c3_rate_limiters_fail_closed.2.1 { attempts := 5, blockedUntil := none, lastAttempt := 0 }
    0 (by decide) (by decide) (by decide)

/-- C4 counterexample: a record whose `lastAttempt` is more than one hour old
(3600 < 4000 - 0) but whose lockout is still active is denied, where the
claim's window clause promises `allowed = true` with 5 remaining attempts. -/
theorem c4_lockout_overrides_stale_window :
    3600 < 4000 - (0 : Nat) ∧
    (checkRateLimit
        (Except.ok (some { attempts := 2, blockedUntil := some 4500, lastAttempt := 0 }))
        (Except.ok ()) 4000).1 =
      { allowed := false, remainingAttempts := none, blockedUntil := some 4500 } := by
  decide

/-- C4 (amended): full case analysis of `checkRateLimit` with the source's
branch priority — no record gives 5 fresh attempts; an active lockout denies
first, regardless of window age; with no active lockout a stale `lastAttempt`
resets to 5 fresh attempts; `attempts ≥ 5` sets the lockout to now + 15
minutes and denies; otherwise `5 - attempts` remain. -/
theorem c4_checkRateLimit_case_analysis :
    (∀ (updRes : Except Unit Unit) (now : Nat),
      checkRateLimit (Except.ok none) updRes now =
        ({ allowed := true, remainingAttempts := some MAX_ATTEMPTS,
           blockedUntil := none }, [])) ∧
    (∀ (record : RateLimitRecord) (updRes : Except Unit Unit) (now b : Nat),
      record.blockedUntil = some b → now < b →
      checkRateLimit (Except.ok (some record)) updRes now =
        ({ allowed := false, remainingAttempts := none,
           blockedUntil := some b }, [])) ∧
    (∀ (record : RateLimitRecord) (updRes : Except Unit Unit) (now : Nat),
      blockedActive record now = false →
      record.lastAttempt < now - ATTEMPT_WINDOW →
      checkRateLimit (Except.ok (some record)) updRes now =
        ({ allowed := true, remainingAttempts := some MAX_ATTEMPTS,
           blockedUntil := none }, [])) ∧
    (∀ (record : RateLimitRecord) (now : Nat),
      blockedActive record now = false →
      ¬ record.lastAttempt < now - ATTEMPT_WINDOW →
      MAX_ATTEMPTS ≤ record.attempts →
      checkRateLimit (Except.ok (some record)) (Except.ok ()) now =
        ({ allowed := false, remainingAttempts := none,
           blockedUntil := some (now + BLOCK_DURATION) },
         [Effect.writeBlockedUntil (now + BLOCK_DURATION)])) ∧
    (∀ (record : RateLimitRecord) (updRes : Except Unit Unit) (now : Nat),
      blockedActive record now = false →
      ¬ record.lastAttempt < now - ATTEMPT_WINDOW →
      record.attempts < MAX_ATTEMPTS →
      checkRateLimit (Except.ok (some record)) updRes now =
        ({ allowed := true,
           remainingAttempts := some (MAX_ATTEMPTS - record.attempts),
           blockedUntil := none }, [])) := by
  refine ⟨fun updRes now => rfl, ?_, ?_, ?_, ?_⟩
  · intro record updRes now b hbu hlt
    have hba : blockedActive record now = true := by
      simp [blockedActive, hbu, hlt]
    simp [checkRateLimit, hba, hbu]
  · intro record updRes now hba hw
    simp [checkRateLimit, hba, hw]
  · intro record now hba hw hmax
    simp [checkRateLimit, hba, hw, hmax]
  · intro record updRes now hba hw hlt
    have hnmax : ¬ MAX_ATTEMPTS ≤ record.attempts := by
      simp only [MAX_ATTEMPTS] at hlt ⊢
      omega
    have hnz : ¬ MAX_ATTEMPTS - record.attempts = 0 := by
      simp only [MAX_ATTEMPTS] at hlt ⊢
      omega
    simp [checkRateLimit, hba, hw, hnmax, hnz]

/-- C4 amended witness: the active branches at concrete records — two failed
attempts leave three, an active lockout denies, and the fifth failure locks
for 15 minutes. -/
theorem c4_checkRateLimit_case_analysis_witness :
    checkRateLimit
        (Except.ok (some { attempts := 2, blockedUntil := none, lastAttempt := 100 }))
        (Except.ok ()) 200 =
      ({ allowed := true, remainingAttempts := some 3, blockedUntil := none }, []) ∧
    checkRateLimit
        (Except.ok (some { attempts := 0, blockedUntil := some 450, lastAttempt := 0 }))
        (Except.ok ()) 400 =
      ({ allowed := false, remainingAttempts := none, blockedUntil := some 450 }, []) ∧
    checkRateLimit
        (Except.ok (some { attempts := 5, blockedUntil := none, lastAttempt := 100 }))
        (Except.ok ()) 200 =
      ({ allowed := false, remainingAttempts := none,
         blockedUntil := some (200 + BLOCK_DURATION) },
       [Effect.writeBlockedUntil (200 + BLOCK_DURATION)]) := by
  refine ⟨?_, ?_, ?_⟩
  · exact c4_checkRateLimit_case_analysis.2.2.2.2
      { attempts := 2, blockedUntil := none, lastAttempt := 100 }
      (Except.ok ()) 200 (by decide) (by decide) (by decide)
  · exact c4_checkRateLimit_case_analysis.2.1
      { attempts := 0, blockedUntil := some 450, lastAttempt := 0 }
      (Except.ok ()) 400 450 rfl (by decide)
  · exact c4_checkRateLimit_case_analysis.2.2.2.1
      { attempts := 5, blockedUntil := none, lastAttempt := 100 }
      200 (by decide) (by decide) (by decide)

/-- C7: every `FileRecord` built by the upload handler has
`expiresAt = uploadedAt + 172800` (48 hours) and `downloadCount = 0`, but its
`scanStatus` is `none` (undefined) — the record literal never sets the
`pending` status the spec and the handler's own comment promise. -/
theorem c7_upload_record_initial_fields (shareId originalFilename s3Key : String)
    (fileSize : Nat) (mimeType : String) (passwordHash : Option String)
    (now : Nat) :
    (mkUploadRecord shareId originalFilename s3Key fileSize mimeType
        passwordHash now).scanStatus = none ∧
    (mkUploadRecord shareId originalFilename s3Key fileSize mimeType
        passwordHash now).expiresAt =
      (mkUploadRecord shareId originalFilename s3Key fileSize mimeType
        passwordHash now).uploadedAt + 172800 ∧
    (mkUploadRecord shareId originalFilename s3Key fileSize mimeType
        passwordHash now).downloadCount = 0 :=
  ⟨rfl, by simp [mkUploadRecord, expirationHours], rfl⟩

/-- C1 (code bug): the step-1 download handler never inspects `scanStatus`.
For an unexpired, well-formed request the spec requires `ACCESS_DENIED` for
an infected record and `SCAN_PENDING` for a pending one, with no token
issued; the code instead returns a 200 success carrying a fresh download
token and issues the `createDownloadToken` write in both cases. -/
theorem c1_download_step1_ignores_scan_status :
    downloadStep1 true (some infectedRecord) sampleRateLimit true "tok"
        (some sampleShareId) none "ip" 100 =
      ({ statusCode := 200,
         body := ResponseBody.tokenBody "tok" "a.txt" 10 "text/plain" },
       [Effect.createToken "tok" sampleShareId "ip" 5]) ∧
    downloadStep1 true (some pendingRecord) sampleRateLimit true "tok"
        (some sampleShareId) none "ip" 100 =
      ({ statusCode := 200,
         body := ResponseBody.tokenBody "tok" "a.txt" 10 "text/plain" },
       [Effect.createToken "tok" sampleShareId "ip" 5]) := by
  constructor
  · decide
  · decide

/-- Shared helper: a plaintext longer than 128 characters always fails the
strength policy (the over-length message is appended and never removed). -/
theorem validatePasswordStrength_long_invalid (p : String)
    (hp : 128 < p.length) : (validatePasswordStrength p).isValid = false := by
  have h8 : ¬ p.length < 8 := by omega
  simp only [validatePasswordStrength, gt_iff_lt, if_neg h8, if_pos hp]
  split_ifs <;> simp

set_option maxRecDepth 8000 in
/-- C9 counterexample: `hashPassword` performs no length check — on a
129-character plaintext it produces a hash instead of failing. -/
theorem c9_hashPassword_accepts_long_plaintext :
    128 < longPassword.length ∧
    hashPassword (fun s => s) longPassword = Except.ok longPassword := by
  exact ⟨by decide, rfl⟩

/-- C9 (amended): `hashPassword` itself hashes any plaintext without a length
check; the over-128 rejection lives in `validatePasswordStrength`, which the
upload handler runs before hashing, so an upload with a password longer than
128 characters is rejected with `VALIDATION_ERROR` before any hash is
computed. -/
theorem c9_length_limit_enforced_by_validator :
    (∀ (bcryptHash : String → String) (p : String),
      hashPassword bcryptHash p = Except.ok (bcryptHash p)) ∧
    (∀ p : String, 128 < p.length →
      (validatePasswordStrength p).isValid = false) ∧
    (∀ (validationCode : ErrorCode) (validationMsg : String)
       (bcryptHash : String → String) (shareId s3Key : String) (now : Nat)
       (fileName : String) (fileSize : Nat) (contentType p : String),
      fileName ≠ "" → fileSize ≠ 0 → contentType ≠ "" → p ≠ "" →
      128 < p.length →
      uploadHandler true validationCode validationMsg bcryptHash shareId s3Key
        now { fileName := some fileName, fileSize := some fileSize,
              contentType := some contentType, password := some p } =
        UploadOutcome.errorOut ErrorCode.VALIDATION_ERROR
          ("Password validation failed: " ++
            String.intercalate ", " (validatePasswordStrength p).errors)) := by
  refine ⟨fun _ _ => rfl, fun p hp => validatePasswordStrength_long_invalid p hp, ?_⟩
  intro validationCode validationMsg bcryptHash shareId s3Key now fileName
    fileSize contentType p hf hs hc hp0 hlen
  have hinv := validatePasswordStrength_long_invalid p hlen
  simp [uploadHandler, hf, hs, hc, hp0, hinv]

set_option maxRecDepth 8000 in
/-- C9 amended witness: the 129-character fixture is rejected by the
validator and by the upload flow. -/
theorem c9_length_limit_enforced_by_validator_witness :
    (validatePasswordStrength longPassword).isValid = false ∧
    uploadHandler true ErrorCode.VALIDATION_ERROR "" (fun s => s) "sid" "key" 0
        { fileName := some "a.txt", fileSize := some 10,
          contentType := some "text/plain", password := some longPassword } =
      UploadOutcome.errorOut ErrorCode.VALIDATION_ERROR
        ("Password validation failed: " ++
          String.intercalate ", " (validatePasswordStrength longPassword).errors) := by
  constructor
  · exact c9_length_limit_enforced_by_validator.2.1 longPassword (by decide)
  · exact c9_length_limit_enforced_by_validator.2.2 ErrorCode.VALIDATION_ERROR
      "" (fun s => s) "sid" "key" 0 "a.txt" 10 "text/plain" longPassword
      (by decide) (by decide) (by decide) (by decide) (by decide)

/-- C6 counterexample: at a well-formed share id, the absent-record and
expired-record responses share the `FILE_NOT_FOUND` code and 404 status but
carry different message strings, for download step 1 and for file info — a
caller can tell "never existed" from "expired". -/
theorem c6_not_found_responses_distinguishable :
    (downloadStep1 true none sampleRateLimit true "tok" (some sampleShareId)
        none "ip" 200).1 =
      { statusCode := 404,
        body := ResponseBody.errorBody ErrorCode.FILE_NOT_FOUND
          "File not found or has expired" } ∧
    (downloadStep1 true (some expiredRecord) sampleRateLimit true "tok"
        (some sampleShareId) none "ip" 200).1 =
      { statusCode := 404,
        body := ResponseBody.errorBody ErrorCode.FILE_NOT_FOUND
          "File has expired" } ∧
    (downloadStep1 true none sampleRateLimit true "tok" (some sampleShareId)
        none "ip" 200).1 ≠
      (downloadStep1 true (some expiredRecord) sampleRateLimit true "tok"
        (some sampleShareId) none "ip" 200).1 ∧
    fileInfoHandler true none (some sampleShareId) 200 ≠
      fileInfoHandler true (some expiredRecord) (some sampleShareId) 200 := by
  refine ⟨by decide, by decide, by decide, by decide⟩

/-- C6 (amended): absent and expired records both map to error code
`FILE_NOT_FOUND` with HTTP 404 in download step 1 and in file info, but the
response bodies differ — "File not found or has expired" versus "File has
expired" — so the two cases are distinguishable by message. -/
theorem c6_not_found_same_code_distinct_message :
    ∀ (rl : RateLimitResult) (verify : Bool) (tok sid : String)
      (password : Option String) (ip : String) (now : Nat) (rec : FileRecord),
      isValidShareId sid = true → rec.expiresAt < now →
      ((downloadStep1 true none rl verify tok (some sid) password ip now).1 =
        { statusCode := 404,
          body := ResponseBody.errorBody ErrorCode.FILE_NOT_FOUND
            "File not found or has expired" }) ∧
      ((downloadStep1 true (some rec) rl verify tok (some sid) password ip
          now).1 =
        { statusCode := 404,
          body := ResponseBody.errorBody ErrorCode.FILE_NOT_FOUND
            "File has expired" }) ∧
      (fileInfoHandler true none (some sid) now =
        { statusCode := 404,
          body := ResponseBody.errorBody ErrorCode.FILE_NOT_FOUND
            "File not found or has expired" }) ∧
      (fileInfoHandler true (some rec) (some sid) now =
        { statusCode := 404,
          body := ResponseBody.errorBody ErrorCode.FILE_NOT_FOUND
            "File has expired" }) ∧
      (downloadStep1 true none rl verify tok (some sid) password ip now).1 ≠
        (downloadStep1 true (some rec) rl verify tok (some sid) password ip
          now).1 := by
  intro rl verify tok sid password ip now rec hsid hexp
  have hA : (downloadStep1 true none rl verify tok (some sid) password ip
      now).1 =
      { statusCode := 404,
        body := ResponseBody.errorBody ErrorCode.FILE_NOT_FOUND
          "File not found or has expired" } := by
    simp [downloadStep1, hsid, downloadErrorResponse]
  have hB : (downloadStep1 true (some rec) rl verify tok (some sid) password
      ip now).1 =
      { statusCode := 404,
        body := ResponseBody.errorBody ErrorCode.FILE_NOT_FOUND
          "File has expired" } := by
    simp [downloadStep1, hsid, hexp, downloadErrorResponse]
  refine ⟨hA, hB, ?_, ?_, ?_⟩
  · simp [fileInfoHandler, hsid, fileInfoErrorResponse]
  · simp [fileInfoHandler, hsid, hexp, fileInfoErrorResponse]
  · rw [hA, hB]
    simp

/-- C6 amended witness: the amended statement at the concrete fixtures. -/
theorem c6_not_found_same_code_distinct_message_witness :
    (downloadStep1 true none sampleRateLimit false "tok" (some sampleShareId)
        none "ip" 150).1 =
      { statusCode := 404,
        body := ResponseBody.errorBody ErrorCode.FILE_NOT_FOUND
          "File not found or has expired" } ∧
    (downloadStep1 true (some expiredRecord) sampleRateLimit false "tok"
        (some sampleShareId) none "ip" 150).1 =
      { statusCode := 404,
        body := ResponseBody.errorBody ErrorCode.FILE_NOT_FOUND
          "File has expired" } := by
  have h := c6_not_found_same_code_distinct_message sampleRateLimit false
    "tok" sampleShareId none "ip" 150 expiredRecord (by decide) (by decide)
  exact ⟨h.1, h.2.1⟩

/-- C5 counterexample: a valid unused token redeemed at time 200 against a
record that expired at 100 but is still present in the store is served a 200
success with a download URL — step 2 performs no `expiresAt` re-check. -/
theorem c5_step2_serves_expired_record :
    expiredRecord.expiresAt < 200 ∧
    (handleTokenDownload sampleTokenStore expiredRecordLookup "url"
        sampleTokenId "ip" 200).1 =
      { statusCode := 200,
        body := ResponseBody.urlBody "url" "a.txt" 10 "text/plain" } := by
  exact ⟨by decide, by decide⟩

/-- C5 (amended): file info and download step 1 return `FILE_NOT_FOUND` for
any record whose `expiresAt` has passed; download step 2 re-fetches the
record after consuming the token but only returns `FILE_NOT_FOUND` when that
record is absent — it does not re-check `expiresAt`, so a still-present
expired record is served. -/
theorem c5_expired_record_handling :
    (∀ (sid : String) (now : Nat) (rec : FileRecord),
      isValidShareId sid = true → rec.expiresAt < now →
      fileInfoHandler true (some rec) (some sid) now =
        { statusCode := 404,
          body := ResponseBody.errorBody ErrorCode.FILE_NOT_FOUND
            "File has expired" }) ∧
    (∀ (rl : RateLimitResult) (verify : Bool) (tok sid : String)
       (password : Option String) (ip : String) (now : Nat) (rec : FileRecord),
      isValidShareId sid = true → rec.expiresAt < now →
      (downloadStep1 true (some rec) rl verify tok (some sid) password ip
          now).1 =
        { statusCode := 404,
          body := ResponseBody.errorBody ErrorCode.FILE_NOT_FOUND
            "File has expired" }) ∧
    (∀ (store : TokenStore) (getRecord : String → Option FileRecord)
       (url tok ip : String) (now : Nat),
      isValidDownloadToken tok = true →
      (validateAndConsumeToken store store tok ip now).1.valid = true →
      getRecord ((validateAndConsumeToken store store tok ip
          now).1.shareId.getD "") = none →
      (handleTokenDownload store getRecord url tok ip now).1 =
        { statusCode := 404,
          body := ResponseBody.errorBody ErrorCode.FILE_NOT_FOUND
            "File not found or has expired" }) := by
  refine ⟨?_, ?_, ?_⟩
  · intro sid now rec hsid hexp
    simp [fileInfoHandler, hsid, hexp, fileInfoErrorResponse]
  · intro rl verify tok sid password ip now rec hsid hexp
    simp [downloadStep1, hsid, hexp, downloadErrorResponse]
  · intro store getRecord url tok ip now htok hvalid hget
    simp [handleTokenDownload, htok, hvalid, hget, downloadErrorResponse]

/-- C5 amended witness: the expired fixture at file info, and a step-2
redemption whose re-fetch finds no record. -/
theorem c5_expired_record_handling_witness :
    fileInfoHandler true (some expiredRecord) (some sampleShareId) 200 =
      { statusCode := 404,
        body := ResponseBody.errorBody ErrorCode.FILE_NOT_FOUND
          "File has expired" } ∧
    (handleTokenDownload sampleTokenStore (fun _ => none) "url" sampleTokenId
        "ip" 200).1 =
      { statusCode := 404,
        body := ResponseBody.errorBody ErrorCode.FILE_NOT_FOUND
          "File not found or has expired" } := by
  constructor
  · exact c5_expired_record_handling.1 sampleShareId 200 expiredRecord
      (by decide) (by decide)
  · exact c5_expired_record_handling.2.2 sampleTokenStore (fun _ => none)
      "url" sampleTokenId "ip" 200 (by decide) (by decide) rfl

/-- C8: for a scan-tag event on the files bucket whose key parses (at least 5
path parts, 32-character share id), a `NO_THREATS_FOUND` tag sets the record
to `clean` with `scanDate = now`; any other tag value sets it to `infected`
with the raw status string recorded inside the `scanResult` JSON and then
deletes the object — the metadata update effect strictly precedes the storage
delete in the issued-effects order; with no scan-status tag nothing is
written. -/
theorem c8_scan_result_state_transitions :
    ∀ (objectKey : String) (tags : List (String × String)) (now : Nat),
      5 ≤ (splitKey objectKey).length →
      ((splitKey objectKey).getD 3 "").length = 32 →
      (findScanStatusTag tags = none →
        scanResultHandler "filelair-files" objectKey tags now = []) ∧
      (findScanStatusTag tags = some "NO_THREATS_FOUND" →
        scanResultHandler "filelair-files" objectKey tags now =
          [Effect.updateScanRecord ((splitKey objectKey).getD 3 "")
            ScanStatus.clean now none]) ∧
      (∀ v : String, findScanStatusTag tags = some v →
        v ≠ "NO_THREATS_FOUND" →
        scanResultHandler "filelair-files" objectKey tags now =
          [Effect.updateScanRecord ((splitKey objectKey).getD 3 "")
            ScanStatus.infected now (some (statusJson v)),
           Effect.deleteObject "filelair-files" objectKey]) := by
  intro objectKey tags now hparts hsid
  have hnot : ¬ (splitKey objectKey).length < 5 := by omega
  simp only [List.getD, List.get?_eq_getElem?] at hsid
  refine ⟨?_, ?_, ?_⟩
  · intro ht
    simp [scanResultHandler, List.getD, hnot, hsid, ht]
  · intro ht
    simp [scanResultHandler, List.getD, hnot, hsid, ht]
  · intro v ht hv
    simp [scanResultHandler, List.getD, hnot, hsid, ht, hv]

/-- C8 witness: a concrete tag event for each branch on a well-formed key. -/
theorem c8_scan_result_state_transitions_witness :
    scanResultHandler "filelair-files"
        ("2024/01/02/" ++ sampleShareId ++ "/f.txt")
        [("GuardDutyMalwareScanStatus", "NO_THREATS_FOUND")] 77 =
      [Effect.updateScanRecord sampleShareId ScanStatus.clean 77 none] ∧
    scanResultHandler "filelair-files"
        ("2024/01/02/" ++ sampleShareId ++ "/f.txt")
        [("GuardDutyMalwareScanStatus", "THREAT_DETECTED")] 77 =
      [Effect.updateScanRecord sampleShareId ScanStatus.infected 77
        (some (statusJson "THREAT_DETECTED")),
       Effect.deleteObject "filelair-files"
        ("2024/01/02/" ++ sampleShareId ++ "/f.txt")] := by
  have hparts :
      5 ≤ (splitKey ("2024/01/02/" ++ sampleShareId ++ "/f.txt")).length := by
    decide
  have hsid :
      ((splitKey ("2024/01/02/" ++ sampleShareId ++ "/f.txt")).getD 3 "").length = 32 := by
    decide
  have hshare :
      (splitKey ("2024/01/02/" ++ sampleShareId ++ "/f.txt")).getD 3 "" = sampleShareId := by
    decide
  have h := c8_scan_result_state_transitions
    ("2024/01/02/" ++ sampleShareId ++ "/f.txt")
    [("GuardDutyMalwareScanStatus", "NO_THREATS_FOUND")] 77 hparts hsid
  have h2 := c8_scan_result_state_transitions
    ("2024/01/02/" ++ sampleShareId ++ "/f.txt")
    [("GuardDutyMalwareScanStatus", "THREAT_DETECTED")] 77 hparts hsid
  constructor
  · have hc := h.2.1 (by decide)
    rw [hshare] at hc
    exact hc
  · have hc := h2.2.2 "THREAT_DETECTED" (by decide) (by decide)
    rw [hshare] at hc
    exact hc

/-- After `markUsed` at a key, a read of that key sees the same token with
`used = true` and `usedAt = now`. -/
theorem storeGet_markUsed (st : TokenStore) (k : String) (now : Nat) :
    storeGet (markUsed st k now) k =
      (storeGet st k).map
        (fun t => { t with used := true, usedAt := some now }) := by
  induction st with
  | nil => rfl
  | cons p st ih =>
    by_cases h : p.1 = k
    · have hb : (p.1 == k) = true := by simp [h]
      simp [markUsed, storeGet, List.find?, hb]
    · have hb : (p.1 == k) = false := by simp [h]
      simp only [markUsed, List.map, hb, if_false, Bool.false_eq_true]
      simp only [markUsed] at ih
      simp [storeGet, List.find?, hb] at ih ⊢
      exact ih

/-- Reading a token that is absent from the read-time store fails with the
invalid-token error. -/
theorem consume_absent_invalid (stR stU : TokenStore) (tid ip : String)
    (now : Nat) (hg : storeGet stR (tokenKey tid) = none) :
    validateAndConsumeToken stR stU tid ip now =
      ({ valid := false, shareId := none,
         error := some "Invalid download token" }, stU) := by
  unfold validateAndConsumeToken
  rw [hg]

/-- An unused token past its expiry fails with the expired error. -/
theorem consume_expired_invalid (stR stU : TokenStore) (tid ip : String)
    (now : Nat) (t : DownloadToken)
    (hg : storeGet stR (tokenKey tid) = some t) (hu : t.used = false)
    (he : t.expiresAt < now) :
    validateAndConsumeToken stR stU tid ip now =
      ({ valid := false, shareId := none,
         error := some "Download token has expired" }, stU) := by
  unfold validateAndConsumeToken
  rw [hg]
  simp [hu, he]

/-- A client-address mismatch on an unused, unexpired token fails with the
origin error. -/
theorem consume_ip_invalid (stR stU : TokenStore) (tid ip : String)
    (now : Nat) (t : DownloadToken)
    (hg : storeGet stR (tokenKey tid) = some t) (hu : t.used = false)
    (he : ¬ t.expiresAt < now)
    (hip : (t.clientIp ≠ "" && t.clientIp ≠ ip) = true) :
    validateAndConsumeToken stR stU tid ip now =
      ({ valid := false, shareId := none,
         error := some "Invalid request origin" }, stU) := by
  unfold validateAndConsumeToken
  rw [hg]
  simp only [Bool.and_eq_true, decide_eq_true_eq] at hip
  simp [hu, he, hip.1, hip.2]

/-- When every read-time guard passes, the outcome is decided by the
conditional update against the update-time store. -/
theorem consume_reaches_update (stR stU : TokenStore) (tid ip : String)
    (now : Nat) (t : DownloadToken)
    (hg : storeGet stR (tokenKey tid) = some t) (hu : t.used = false)
    (he : ¬ t.expiresAt < now)
    (hip : (t.clientIp ≠ "" && t.clientIp ≠ ip) = false) :
    validateAndConsumeToken stR stU tid ip now =
      (if (condUpdateUsed stU (tokenKey tid) now).1 = true then
        ({ valid := true, shareId := some t.originalShareId, error := none },
         (condUpdateUsed stU (tokenKey tid) now).2)
      else
        ({ valid := false, shareId := none,
           error := some "Download token has already been used" },
         (condUpdateUsed stU (tokenKey tid) now).2)) := by
  unfold validateAndConsumeToken
  rw [hg]
  have hnand : ¬ (t.clientIp ≠ "" ∧ t.clientIp ≠ ip) := by
    intro hand
    simp [hand.1, hand.2] at hip
  simp [hu, he, hnand]

/-- A successful conditional update found an unused token and wrote the
`markUsed` store. -/
theorem condUpdateUsed_success (st : TokenStore) (k : String) (now : Nat)
    (h : (condUpdateUsed st k now).1 = true) :
    ∃ t : DownloadToken, storeGet st k = some t ∧ t.used = false ∧
      (condUpdateUsed st k now).2 = markUsed st k now := by
  unfold condUpdateUsed at h ⊢
  rcases hg : storeGet st k with _ | t
  · rw [hg] at h
    simp at h
  · rw [hg] at h
    by_cases hu : t.used
    · simp [hu] at h
    · exact ⟨t, rfl, by simpa using hu, by simp [hu]⟩

/-- Reading an already-used token fails with the already-used error and
leaves the update-time store untouched. -/
theorem consume_used_invalid (stR stU : TokenStore) (tid ip : String)
    (now : Nat) (t : DownloadToken)
    (hg : storeGet stR (tokenKey tid) = some t) (hu : t.used = true) :
    validateAndConsumeToken stR stU tid ip now =
      ({ valid := false, shareId := none,
         error := some "Download token has already been used" }, stU) := by
  unfold validateAndConsumeToken
  rw [hg]
  simp [hu]

/-- A successful `validateAndConsumeToken` found an unused token in the
update-time store and leaves it marked used in the resulting store. -/
theorem consume_success (stR stU : TokenStore) (tid ip : String) (now : Nat)
    (h : (validateAndConsumeToken stR stU tid ip now).1.valid = true) :
    ∃ t : DownloadToken, storeGet stU (tokenKey tid) = some t ∧
      t.used = false ∧
      storeGet (validateAndConsumeToken stR stU tid ip now).2 (tokenKey tid) =
        some { t with used := true, usedAt := some now } := by
  rcases hg : storeGet stR (tokenKey tid) with _ | token
  · rw [consume_absent_invalid stR stU tid ip now hg] at h
    simp at h
  · by_cases hu : token.used
    · rw [consume_used_invalid stR stU tid ip now token hg hu] at h
      simp at h
    · have hu2 : token.used = false := by simpa using hu
      by_cases he : token.expiresAt < now
      · rw [consume_expired_invalid stR stU tid ip now token hg hu2 he] at h
        simp at h
      · by_cases hip : (token.clientIp ≠ "" && token.clientIp ≠ ip) = true
        · rw [consume_ip_invalid stR stU tid ip now token hg hu2 he hip] at h
          simp at h
        · have hip2 : (token.clientIp ≠ "" && token.clientIp ≠ ip) = false := by
            simpa using hip
          have heq := consume_reaches_update stR stU tid ip now token hg hu2 he hip2
          rw [heq] at h ⊢
          by_cases hcu : (condUpdateUsed stU (tokenKey tid) now).1 = true
          · obtain ⟨t, hgu, htu, hst⟩ := condUpdateUsed_success stU (tokenKey tid) now hcu
            refine ⟨t, hgu, htu, ?_⟩
            simp only [hcu, if_true]
            rw [hst, storeGet_markUsed, hgu]
            rfl
          · simp [hcu] at h

/-- Once the stored token is used, no sequence of further attempts ever
redeems it again (and the store stays fixed). -/
theorem runAttempts_used_zero (tid : String) (t : DownloadToken)
    (hu : t.used = true) :
    ∀ (atts : List (String × Nat)) (st : TokenStore),
      storeGet st (tokenKey tid) = some t →
      runAttempts st tid atts = (0, st) := by
  intro atts
  induction atts with
  | nil =>
    intro st hg
    rfl
  | cons a rest ih =>
    intro st hg
    obtain ⟨ip, now⟩ := a
    have hstep := consume_used_invalid st st tid ip now t hg hu
    simp only [runAttempts, hstep]
    simp [ih st hg]

/-- At most one redemption in any serialized attempt sequence succeeds. -/
theorem runAttempts_at_most_one (tid : String) :
    ∀ (atts : List (String × Nat)) (st : TokenStore),
      (runAttempts st tid atts).1 ≤ 1 := by
  intro atts
  induction atts with
  | nil =>
    intro st
    simp [runAttempts]
  | cons a rest ih =>
    intro st
    obtain ⟨ip, now⟩ := a
    rcases hstep : validateAndConsumeToken st st tid ip now with ⟨res, st2⟩
    by_cases hv : res.valid = true
    · have hsucc := consume_success st st tid ip now (by rw [hstep]; exact hv)
      obtain ⟨t, hu0, hunused, hpost⟩ := hsucc
      rw [hstep] at hpost
      have hrest := runAttempts_used_zero tid
        { t with used := true, usedAt := some now } rfl rest st2 hpost
      simp only [runAttempts, hstep]
      simp [hv, hrest]
    · simp only [runAttempts, hstep]
      have hv2 : res.valid = false := by
        cases hres : res.valid
        · rfl
        · exact absurd hres hv
      simp only [hv2, Bool.false_eq_true, if_false]
      simpa using ih st2

/-- C2: token redemption is single-use. In any serialized sequence of
redemption attempts at most one succeeds; a repeat attempt that reads a used
token, or a concurrent loser whose conditional update finds the token already
used, fails with the already-used error; and an attempt after `expiresAt`
fails with the expired error even when the token is unused. -/
theorem c2_token_single_use :
    (∀ (st : TokenStore) (tokenId : String) (atts : List (String × Nat)),
      (runAttempts st tokenId atts).1 ≤ 1) ∧
    (∀ (stR stU : TokenStore) (tokenId clientIp : String) (now : Nat)
       (t : DownloadToken),
      storeGet stR (tokenKey tokenId) = some t → t.used = true →
      (validateAndConsumeToken stR stU tokenId clientIp now).1 =
        { valid := false, shareId := none,
          error := some "Download token has already been used" }) ∧
    (∀ (stR stU : TokenStore) (tokenId clientIp : String) (now : Nat)
       (t tUpd : DownloadToken),
      storeGet stR (tokenKey tokenId) = some t → t.used = false →
      ¬ t.expiresAt < now →
      (t.clientIp ≠ "" && t.clientIp ≠ clientIp) = false →
      storeGet stU (tokenKey tokenId) = some tUpd → tUpd.used = true →
      (validateAndConsumeToken stR stU tokenId clientIp now).1 =
        { valid := false, shareId := none,
          error := some "Download token has already been used" }) ∧
    (∀ (stR stU : TokenStore) (tokenId clientIp : String) (now : Nat)
       (t : DownloadToken),
      storeGet stR (tokenKey tokenId) = some t → t.used = false →
      t.expiresAt < now →
      (validateAndConsumeToken stR stU tokenId clientIp now).1 =
        { valid := false, shareId := none,
          error := some "Download token has expired" }) := by
  refine ⟨fun st tokenId atts => runAttempts_at_most_one tokenId atts st,
    ?_, ?_, ?_⟩
  · intro stR stU tokenId clientIp now t hg hu
    rw [consume_used_invalid stR stU tokenId clientIp now t hg hu]
  · intro stR stU tokenId clientIp now t tUpd hg hu he hip hgu huu
    rw [consume_reaches_update stR stU tokenId clientIp now t hg hu he hip]
    have hcu : (condUpdateUsed stU (tokenKey tokenId) now).1 = false := by
      unfold condUpdateUsed
      rw [hgu]
      simp [huu]
    simp [hcu]
  · intro stR stU tokenId clientIp now t hg hu he
    rw [consume_expired_invalid stR stU tokenId clientIp now t hg hu he]

/-- C2 witness: on the concrete single-token store, two serialized attempts
yield at most one success; the post-success store rejects a repeat and a
concurrent loser with the already-used error; and an unused token attempted
past its expiry (400 > 300) is rejected as expired. -/
theorem c2_token_single_use_witness :
    (runAttempts sampleTokenStore sampleTokenId [("ip", 50), ("ip", 60)]).1 ≤ 1 ∧
    (validateAndConsumeToken
        (markUsed sampleTokenStore (tokenKey sampleTokenId) 50)
        (markUsed sampleTokenStore (tokenKey sampleTokenId) 50)
        sampleTokenId "ip" 60).1 =
      { valid := false, shareId := none,
        error := some "Download token has already been used" } ∧
    (validateAndConsumeToken sampleTokenStore
        (markUsed sampleTokenStore (tokenKey sampleTokenId) 50)
        sampleTokenId "ip" 60).1 =
      { valid := false, shareId := none,
        error := some "Download token has already been used" } ∧
    (validateAndConsumeToken sampleTokenStore sampleTokenStore sampleTokenId
        "ip" 400).1 =
      { valid := false, shareId := none,
        error := some "Download token has expired" } := by
  refine ⟨c2_token_single_use.1 sampleTokenStore sampleTokenId
    [("ip", 50), ("ip", 60)], ?_, ?_, ?_⟩
  · exact c2_token_single_use.2.1
      (markUsed sampleTokenStore (tokenKey sampleTokenId) 50)
      (markUsed sampleTokenStore (tokenKey sampleTokenId) 50)
      sampleTokenId "ip" 60
      { sampleToken with used := true, usedAt := some 50 } (by decide) rfl
  · exact c2_token_single_use.2.2.1 sampleTokenStore
      (markUsed sampleTokenStore (tokenKey sampleTokenId) 50)
      sampleTokenId "ip" 60 sampleToken
      { sampleToken with used := true, usedAt := some 50 }
      (by decide) rfl (by decide) (by decide) (by decide) rfl
  · exact c2_token_single_use.2.2.2 sampleTokenStore sampleTokenStore
      sampleTokenId "ip" 400 sampleToken (by decide) rfl (by decide)

end FileSharing
